import Mathlib

/-!
Shallow embedding of `DroneToolsManager` (src/drone/drone_tools.py), the
Vehicle Lifecycle & Mission Orchestrator of the deepdrone repository.

Modelling conventions:
* The Vehicle Link (`DroneController`, an external collaborator) is a
  nondeterministic environment: the outcome of each link primitive the
  orchestrator calls is passed in as a `LinkOutcome` parameter
  (`ok` = the call returned `True`, `fail` = it returned `False`,
  `exc m` = it raised an exception whose description is `m`).
* Each orchestrator method returns, besides its Python return value and the
  updated state, the list of Vehicle Link calls it performed (its trace),
  so that "makes no Vehicle Link call" is expressible.
* Wall-clock timestamps in log entries are abstracted away: a `LogEntry`
  keeps the `status` and `phase` strings of `_update_status`.
* Floating point arguments (altitude, latitude, longitude, speed) are only
  formatted into strings by the orchestrator, never computed with, so they
  are modelled by their string rendering.
* The field `emitted` is a history variable: it records every entry that
  `_update_status` appended (the `logger.info(log_entry)` stream), unbounded,
  while `log_entries` is the bounded log of the source.
-/

/-- A mission waypoint; coordinates are modelled by their rendered decimal
strings, since the orchestrator only formats them into status messages. -/
structure Waypoint where
  lat : String
  lon : String
  alt : String
deriving DecidableEq, Repr, Inhabited

/-- One status-log entry of `_update_status`; the wall-clock timestamp of the
source's formatted string is abstracted away. -/
structure LogEntry where
  status : String
  phase : String
deriving DecidableEq, Repr, Inhabited

/-- The mutable state of `DroneToolsManager.__init__`, plus the `emitted`
history variable recording every appended log entry. -/
structure DroneState where
  connected : Bool
  mission_in_progress : Bool
  status : String
  phase : String
  log_entries : List LogEntry
  emitted : List LogEntry
deriving DecidableEq, Repr

/-- `DroneToolsManager.__init__`: STANDBY, disconnected, empty log. -/
def initState : DroneState :=
  { connected := false, mission_in_progress := false,
    status := "STANDBY", phase := "", log_entries := [], emitted := [] }

/-- Outcome of one Vehicle Link call: returned `True`, returned `False`, or
raised an exception carrying description `msg`. -/
inductive LinkOutcome where
  | ok
  | fail
  | exc (msg : String)
deriving DecidableEq, Repr

/-- A Vehicle Link (DroneController) call, as recorded in a command's trace;
constructor names follow the controller methods invoked by drone_tools.py. -/
inductive LinkCall where
  | connect_to_drone (conn : String) (timeout : Nat)
  | disconnect
  | arm_and_takeoff (alt : String)
  | land
  | return_to_launch
  | goto_location (lat lon alt : String)
  | upload_mission (wps : List Waypoint)
  | execute_mission
  | get_current_location
  | get_battery_status
  | set_airspeed (speed : String)
deriving DecidableEq, Repr

/-- The log truncation of `_update_status`: append, then keep only the last
50 entries (`self.log_entries = self.log_entries[-50:]`). -/
def appendLog (log : List LogEntry) (e : LogEntry) : List LogEntry :=
  let l := log ++ [e]
  if l.length > 50 then l.drop (l.length - 50) else l

/-- `DroneToolsManager._update_status`: set status and phase, append a log
entry, truncate to 50; `emitted` additionally records the entry unboundedly
(the source's `logger.info` stream). -/
def updateStatus (s : DroneState) (status phase : String) : DroneState :=
  { s with
    status := status
    phase := phase
    log_entries := appendLog s.log_entries ⟨status, phase⟩
    emitted := s.emitted ++ [⟨status, phase⟩] }

/-- `DroneToolsManager._ensure_connected`. -/
def ensure_connected (s : DroneState) : Bool :=
  s.connected

/-- `DroneToolsManager.connect_drone`. On link success: set `connected`,
log CONNECTED, then read location and battery (state-irrelevant reads whose
own errors are swallowed inside `get_location`/`get_battery`). On link
failure or exception: ERROR entry, return `False`; `connected` untouched. -/
def connect_drone (s : DroneState) (conn : String) (timeout : Nat)
    (o : LinkOutcome) : Bool × DroneState × List LinkCall :=
  let s1 := updateStatus s "CONNECTING" ("Connecting to " ++ conn)
  match o with
  | .ok =>
      let s2 := updateStatus { s1 with connected := true }
        "CONNECTED" "Successfully connected to drone"
      (true, s2, [.connect_to_drone conn timeout, .get_current_location,
                  .get_battery_status])
  | .fail =>
      (false, updateStatus s1 "ERROR" "Failed to connect to drone",
       [.connect_to_drone conn timeout])
  | .exc m =>
      (false, updateStatus s1 "ERROR" ("Connection error: " ++ m),
       [.connect_to_drone conn timeout])

/-- `DroneToolsManager.disconnect_drone`. The teardown outcome is `none`
(returned normally) or `some m` (raised `m`). On an exception the `except`
block only logs: `connected`/`mission_in_progress` are left as they were
and no further status update happens. -/
def disconnect_drone (s : DroneState) (o : Option String) :
    DroneState × List LinkCall :=
  let s1 := updateStatus s "DISCONNECTING" "Disconnecting from drone"
  match o with
  | none =>
      let s2 := { s1 with connected := false, mission_in_progress := false }
      (updateStatus s2 "STANDBY" "Disconnected from drone", [.disconnect])
  | some _ =>
      (s1, [.disconnect])

/-- `DroneToolsManager.takeoff`. -/
def takeoff (s : DroneState) (altitude : String) (o : LinkOutcome) :
    Bool × DroneState × List LinkCall :=
  if !(ensure_connected s) then (false, s, [])
  else
    let s1 := updateStatus s "TAKING OFF" ("Taking off to " ++ altitude ++ " meters")
    let s2 := { s1 with mission_in_progress := true }
    match o with
    | .ok =>
        (true, updateStatus s2 "AIRBORNE"
          ("Reached altitude of " ++ altitude ++ " meters"),
         [.arm_and_takeoff altitude])
    | .fail =>
        let s3 := updateStatus s2 "ERROR" "Takeoff failed"
        (false, { s3 with mission_in_progress := false },
         [.arm_and_takeoff altitude])
    | .exc m =>
        let s3 := updateStatus s2 "ERROR" ("Takeoff error: " ++ m)
        (false, { s3 with mission_in_progress := false },
         [.arm_and_takeoff altitude])

/-- `DroneToolsManager.land`. -/
def land (s : DroneState) (o : LinkOutcome) :
    Bool × DroneState × List LinkCall :=
  if !(ensure_connected s) then (false, s, [])
  else
    let s1 := updateStatus s "LANDING" "Landing drone"
    match o with
    | .ok =>
        let s2 := updateStatus s1 "LANDED" "Drone has landed"
        (true, { s2 with mission_in_progress := false }, [.land])
    | .fail =>
        (false, updateStatus s1 "ERROR" "Landing failed", [.land])
    | .exc m =>
        (false, updateStatus s1 "ERROR" ("Landing error: " ++ m), [.land])

/-- `DroneToolsManager.return_home`. -/
def return_home (s : DroneState) (o : LinkOutcome) :
    Bool × DroneState × List LinkCall :=
  if !(ensure_connected s) then (false, s, [])
  else
    let s1 := updateStatus s "RETURNING" "Returning to launch point"
    match o with
    | .ok =>
        (true, updateStatus s1 "RETURNING" "Drone is returning to launch point",
         [.return_to_launch])
    | .fail =>
        (false, updateStatus s1 "ERROR" "Return to home failed",
         [.return_to_launch])
    | .exc m =>
        (false, updateStatus s1 "ERROR" ("Return error: " ++ m),
         [.return_to_launch])

/-- `DroneToolsManager.fly_to`. -/
def fly_to (s : DroneState) (lat lon alt : String) (o : LinkOutcome) :
    Bool × DroneState × List LinkCall :=
  if !(ensure_connected s) then (false, s, [])
  else
    let s1 := updateStatus s "NAVIGATING"
      ("Flying to lat:" ++ lat ++ ", lon:" ++ lon ++ ", alt:" ++ alt ++ "m")
    match o with
    | .ok => (true, s1, [.goto_location lat lon alt])
    | .fail =>
        (false, updateStatus s1 "ERROR" "Navigation failed",
         [.goto_location lat lon alt])
    | .exc m =>
        (false, updateStatus s1 "ERROR" ("Navigation error: " ++ m),
         [.goto_location lat lon alt])

/-- Detail string of one mission-progress entry:
`f"Waypoint {i}/{n}: {wp.lat}, {wp.lon}"`. -/
def wpDetail (i n : Nat) (wp : Waypoint) : String :=
  "Waypoint " ++ toString i ++ "/" ++ toString n ++ ": " ++ wp.lat ++ ", " ++ wp.lon

/-- The `for i, wp in enumerate(waypoints, 1)` progress loop of
`execute_mission`: one EXECUTING status update per waypoint, in order
(`time.sleep` has no state effect and is dropped). -/
def missionLoop (s : DroneState) (n i : Nat) (wps : List Waypoint) : DroneState :=
  match wps with
  | [] => s
  | wp :: rest => missionLoop (updateStatus s "EXECUTING" (wpDetail i n wp)) n (i + 1) rest

/-- `DroneToolsManager.execute_mission`; `oUp` is the outcome of
`controller.upload_mission`, `oStart` of `controller.execute_mission`.
An empty waypoint list only hits `logger.error` (no status update). -/
def execute_mission (s : DroneState) (wps : List Waypoint)
    (oUp oStart : LinkOutcome) : Bool × DroneState × List LinkCall :=
  if !(ensure_connected s) then (false, s, [])
  else if wps.isEmpty then (false, s, [])
  else
    let s1 := updateStatus s "MISSION"
      ("Starting mission with " ++ toString wps.length ++ " waypoints")
    let s2 := { s1 with mission_in_progress := true }
    match oUp with
    | .fail =>
        let s3 := updateStatus s2 "ERROR" "Failed to upload mission"
        (false, { s3 with mission_in_progress := false }, [.upload_mission wps])
    | .exc m =>
        let s3 := updateStatus s2 "ERROR" ("Mission error: " ++ m)
        (false, { s3 with mission_in_progress := false }, [.upload_mission wps])
    | .ok =>
        match oStart with
        | .ok =>
            let s3 := updateStatus s2 "EXECUTING" "Mission execution started"
            let s4 := missionLoop s3 wps.length 1 wps
            (true, updateStatus s4 "MISSION COMPLETE" "All waypoints reached",
             [.upload_mission wps, .execute_mission])
        | .fail =>
            let s3 := updateStatus s2 "ERROR" "Failed to start mission execution"
            (false, { s3 with mission_in_progress := false },
             [.upload_mission wps, .execute_mission])
        | .exc m =>
            let s3 := updateStatus s2 "ERROR" ("Mission error: " ++ m)
            (false, { s3 with mission_in_progress := false },
             [.upload_mission wps, .execute_mission])

/-- `DroneToolsManager.emergency_stop`: no-op when not connected; otherwise
EMERGENCY entry, then `return_home`, falling back to `land` when it returned
`False`; `mission_in_progress` is cleared afterwards (its `except` block is
unreachable since `return_home`/`land` swallow their own exceptions). -/
def emergency_stop (s : DroneState) (oRTL oLand : LinkOutcome) :
    DroneState × List LinkCall :=
  if !s.connected then (s, [])
  else
    let s1 := updateStatus s "EMERGENCY" "Emergency stop initiated"
    let r := return_home s1 oRTL
    if r.1 then
      ({ r.2.1 with mission_in_progress := false }, r.2.2)
    else
      let r2 := land r.2.1 oLand
      ({ r2.2.1 with mission_in_progress := false }, r.2.2 ++ r2.2.2)

/-- `DroneToolsManager.set_airspeed`: guarded, the link result or a caught
exception is mapped to the boolean result; no status update at all. -/
def set_airspeed (s : DroneState) (speed : String) (o : LinkOutcome) :
    Bool × DroneState × List LinkCall :=
  if !(ensure_connected s) then (false, s, [])
  else
    match o with
    | .ok => (true, s, [.set_airspeed speed])
    | .fail => (false, s, [.set_airspeed speed])
    | .exc _ => (false, s, [.set_airspeed speed])

/-- One orchestrator command together with the Vehicle Link outcomes it
observes: the alphabet of command sequences. -/
inductive Op where
  | connect_drone (conn : String) (timeout : Nat) (o : LinkOutcome)
  | disconnect_drone (o : Option String)
  | takeoff (alt : String) (o : LinkOutcome)
  | land (o : LinkOutcome)
  | return_home (o : LinkOutcome)
  | fly_to (lat lon alt : String) (o : LinkOutcome)
  | execute_mission (wps : List Waypoint) (oUp oStart : LinkOutcome)
  | emergency_stop (oRTL oLand : LinkOutcome)
  | set_airspeed (speed : String) (o : LinkOutcome)
deriving DecidableEq, Repr

/-- State reached after one orchestrator command. -/
def runOp (s : DroneState) : Op → DroneState
  | .connect_drone c t o => (connect_drone s c t o).2.1
  | .disconnect_drone o => (disconnect_drone s o).1
  | .takeoff a o => (takeoff s a o).2.1
  | .land o => (land s o).2.1
  | .return_home o => (return_home s o).2.1
  | .fly_to la lo al o => (fly_to s la lo al o).2.1
  | .execute_mission w o1 o2 => (execute_mission s w o1 o2).2.1
  | .emergency_stop o1 o2 => (emergency_stop s o1 o2).1
  | .set_airspeed sp o => (set_airspeed s sp o).2.1

/-- State reached after a sequence of orchestrator commands. -/
def runOps (s : DroneState) (ops : List Op) : DroneState :=
  ops.foldl runOp s

/-! ## Helper lemmas -/

/-- The truncation in `_update_status` bounds the log by 50 unconditionally. -/
theorem appendLog_length_le (log : List LogEntry) (e : LogEntry) :
    (appendLog log e).length ≤ 50 := by
  simp only [appendLog, List.length_append, List.length_singleton]
  split
  · simp only [List.length_drop, List.length_append, List.length_singleton]
    omega
  · rename_i hle
    simp only [List.length_append, List.length_singleton]
    omega

/-- When the log respects the bound, `appendLog` is a drop of the concat. -/
theorem appendLog_eq_drop (log : List LogEntry) (e : LogEntry)
    (h : log.length ≤ 50) :
    appendLog log e = (log ++ [e]).drop (log.length + 1 - 50) := by
  simp only [appendLog, List.length_append, List.length_singleton]
  split
  · rfl
  · rename_i hle
    have h0 : log.length + 1 - 50 = 0 := by omega
    rw [h0, List.drop_zero]

/-- FIFO characterization of iterated appends: starting from a log within
bound, the result is the suffix of the concatenation that fits in 50. -/
theorem foldl_appendLog_eq_drop (es : List LogEntry) :
    ∀ log : List LogEntry, log.length ≤ 50 →
      es.foldl appendLog log = (log ++ es).drop (log.length + es.length - 50) := by
  induction es with
  | nil =>
      intro log h
      simp only [List.foldl_nil, List.length_nil, Nat.add_zero, List.append_nil]
      have h0 : log.length - 50 = 0 := by omega
      rw [h0, List.drop_zero]
  | cons e es ih =>
      intro log h
      have hlen : (appendLog log e).length ≤ 50 := appendLog_length_le log e
      rw [List.foldl_cons, ih (appendLog log e) hlen,
        appendLog_eq_drop log e h]
      have h2 : ((log ++ [e]) ++ es).drop (log.length + 1 - 50)
          = (log ++ [e]).drop (log.length + 1 - 50) ++ es := by
        rw [List.drop_append_eq_append_drop]
        have hz : log.length + 1 - 50 - (log ++ [e]).length = 0 := by
          simp only [List.length_append, List.length_singleton]
          omega
        rw [hz, List.drop_zero]
      rw [← h2, List.drop_drop]
      simp only [List.length_drop, List.length_append, List.length_singleton,
        List.length_cons, List.length_nil, List.append_assoc, List.singleton_append]
      congr 1
      omega

/-- A fresh orchestrator log after a sequence of raw appends is exactly the
suffix of the appended entries that fits, in append order. -/
theorem foldl_appendLog_nil (es : List LogEntry) :
    es.foldl appendLog [] = es.drop (es.length - 50) := by
  have := foldl_appendLog_eq_drop es [] (by simp)
  simpa using this

/-- `LogOk s`: the bounded status log respects its capacity. -/
def LogOk (s : DroneState) : Prop :=
  s.log_entries.length ≤ 50

theorem logOk_updateStatus (s : DroneState) (a b : String) :
    LogOk (updateStatus s a b) :=
  appendLog_length_le _ _

theorem logOk_missionLoop (wps : List Waypoint) :
    ∀ (s : DroneState) (n i : Nat), LogOk s → LogOk (missionLoop s n i wps) := by
  induction wps with
  | nil => intro s n i h; exact h
  | cons wp rest ih =>
      intro s n i h
      exact ih _ n (i + 1) (logOk_updateStatus s _ _)

theorem logOk_runOp (s : DroneState) (op : Op) (h : LogOk s) :
    LogOk (runOp s op) := by
  cases op with
  | connect_drone c t o =>
      cases o <;> exact logOk_updateStatus _ _ _
  | disconnect_drone o =>
      cases o <;> exact logOk_updateStatus _ _ _
  | takeoff a o =>
      by_cases hc : s.connected
      · cases o <;> simp [runOp, takeoff, ensure_connected, hc] <;>
          exact logOk_updateStatus _ _ _
      · simp [runOp, takeoff, ensure_connected, hc]; exact h
  | land o =>
      by_cases hc : s.connected
      · cases o <;> simp [runOp, land, ensure_connected, hc] <;>
          exact logOk_updateStatus _ _ _
      · simp [runOp, land, ensure_connected, hc]; exact h
  | return_home o =>
      by_cases hc : s.connected
      · cases o <;> simp [runOp, return_home, ensure_connected, hc] <;>
          exact logOk_updateStatus _ _ _
      · simp [runOp, return_home, ensure_connected, hc]; exact h
  | fly_to la lo al o =>
      by_cases hc : s.connected
      · cases o <;> simp [runOp, fly_to, ensure_connected, hc] <;>
          exact logOk_updateStatus _ _ _
      · simp [runOp, fly_to, ensure_connected, hc]; exact h
  | execute_mission w o1 o2 =>
      by_cases hc : s.connected
      · by_cases hw : w.isEmpty
        · simp [runOp, execute_mission, ensure_connected, hc, hw]; exact h
        · cases o1 with
          | ok =>
              cases o2 <;> simp [runOp, execute_mission, ensure_connected, hc, hw]
              · exact logOk_updateStatus _ _ _
              · exact logOk_updateStatus _ _ _
              · exact logOk_updateStatus _ _ _
          | fail =>
              simp [runOp, execute_mission, ensure_connected, hc, hw]
              exact logOk_updateStatus _ _ _
          | exc m =>
              simp [runOp, execute_mission, ensure_connected, hc, hw]
              exact logOk_updateStatus _ _ _
      · simp [runOp, execute_mission, ensure_connected, hc]; exact h
  | emergency_stop o1 o2 =>
      by_cases hc : s.connected
      · have h1 : LogOk (updateStatus s "EMERGENCY" "Emergency stop initiated") :=
          logOk_updateStatus _ _ _
        simp only [runOp, emergency_stop, hc, Bool.not_true, Bool.false_eq_true,
          if_false]
        set s1 := updateStatus s "EMERGENCY" "Emergency stop initiated" with hs1
        have hc1 : s1.connected = s.connected := rfl
        cases o1 with
        | ok =>
            simp [return_home, ensure_connected, hc1, hc]
            exact logOk_updateStatus _ _ _
        | fail =>
            cases o2 <;>
              simp [return_home, land, ensure_connected, hc1, hc, LogOk,
                updateStatus] <;>
              exact appendLog_length_le _ _
        | exc m =>
            cases o2 <;>
              simp [return_home, land, ensure_connected, hc1, hc, LogOk,
                updateStatus] <;>
              exact appendLog_length_le _ _
      · simp [runOp, emergency_stop, hc]; exact h
  | set_airspeed sp o =>
      by_cases hc : s.connected
      · cases o <;> simp [runOp, set_airspeed, ensure_connected, hc] <;> exact h
      · simp [runOp, set_airspeed, ensure_connected, hc]; exact h

theorem logOk_runOps (ops : List Op) :
    ∀ s : DroneState, LogOk s → LogOk (runOps s ops) := by
  induction ops with
  | nil => intro s h; exact h
  | cons op rest ih =>
      intro s h
      exact ih (runOp s op) (logOk_runOp s op h)

/-! ## Concrete states used by witnesses and counterexamples -/

/-- A concrete connected state: a fresh session after a successful connect. -/
def sConn : DroneState :=
  (connect_drone initState "udp:127.0.0.1:14550" 30 .ok).2.1

/-- A concrete connected state with `mission_in_progress = true`: after a
successful takeoff (the source's `takeoff` sets the flag). -/
def sMip : DroneState :=
  (takeoff sConn "30.0" .ok).2.1

/-! ## Claims -/

/-- Claim C1: while the orchestrator is not connected, every flight command
(takeoff, land, return_home, fly_to, execute_mission) returns failure with
the state completely unchanged (so no status transition and no status-log
entry) and an empty Vehicle Link call trace. -/
theorem C1_disconnected_flight_commands_rejected
    (s : DroneState) (h : s.connected = false)
    (alt la lo al : String) (o : LinkOutcome)
    (wps : List Waypoint) (oUp oStart : LinkOutcome) :
    takeoff s alt o = (false, s, []) ∧
    land s o = (false, s, []) ∧
    return_home s o = (false, s, []) ∧
    fly_to s la lo al o = (false, s, []) ∧
    execute_mission s wps oUp oStart = (false, s, []) := by
  simp [takeoff, land, return_home, fly_to, execute_mission,
    ensure_connected, h]

/-- Witness for C1, at the initial (disconnected) state. -/
theorem C1_witness :
    takeoff initState "30.0" .ok = (false, initState, []) ∧
    land initState .ok = (false, initState, []) ∧
    return_home initState .ok = (false, initState, []) ∧
    fly_to initState "1.0" "2.0" "10" .ok = (false, initState, []) ∧
    execute_mission initState [⟨"1.0", "1.0", "10"⟩] .ok .ok
      = (false, initState, []) :=
  C1_disconnected_flight_commands_rejected initState rfl "30.0" "1.0" "2.0"
    "10" .ok [⟨"1.0", "1.0", "10"⟩] .ok .ok

/-- Claim C9: emergency_stop while not connected is a complete no-op: the
state is returned unchanged (status, phase, mission_in_progress and the log
untouched) and no Vehicle Link call is made. -/
theorem C9_emergency_stop_noop_when_disconnected
    (s : DroneState) (h : s.connected = false) (oRTL oLand : LinkOutcome) :
    emergency_stop s oRTL oLand = (s, []) := by
  simp [emergency_stop, h]

/-- Witness for C9 at the initial state. -/
theorem C9_witness : emergency_stop initState .ok .ok = (initState, []) :=
  C9_emergency_stop_noop_when_disconnected initState rfl .ok .ok

/-- Counterexample for claim C5: when the Vehicle Link teardown call throws,
`disconnect_drone` does NOT reach the disconnected state: starting from a
connected state with a mission in progress, `connected` and
`mission_in_progress` both stay true (the except block only logs). -/
theorem C5_counterexample :
    sMip.connected = true ∧ sMip.mission_in_progress = true ∧
    (disconnect_drone sMip (some "link teardown failure")).1.connected = true ∧
    (disconnect_drone sMip (some "link teardown failure")).1.mission_in_progress
      = true := by
  decide

/-- Claim C5 (amended): when the teardown call returns normally,
disconnect_drone ends disconnected (connected and mission_in_progress false,
status STANDBY); when the teardown call throws, the failure is swallowed
(never re-raised: the method still returns a state) but the orchestrator
keeps its previous `connected` and `mission_in_progress` values, with status
left at DISCONNECTING. -/
theorem C5_disconnect_best_effort (s : DroneState) (m : String) :
    ((disconnect_drone s none).1.connected = false ∧
      (disconnect_drone s none).1.mission_in_progress = false ∧
      (disconnect_drone s none).1.status = "STANDBY" ∧
      (disconnect_drone s none).2 = [.disconnect]) ∧
    ((disconnect_drone s (some m)).1.connected = s.connected ∧
      (disconnect_drone s (some m)).1.mission_in_progress
        = s.mission_in_progress ∧
      (disconnect_drone s (some m)).1.status = "DISCONNECTING" ∧
      (disconnect_drone s (some m)).2 = [.disconnect]) := by
  simp [disconnect_drone, updateStatus]

/-- Claim C10: connect_drone sets `connected` to true only on a successful
link connect and never sets it to false; from an already-connected state a
failed or throwing connect attempt returns failure but leaves
`connected = true`, with status ERROR. -/
theorem C10_connect_only_sets_connected
    (s : DroneState) (c : String) (t : Nat) (o : LinkOutcome) :
    (o = .ok → (connect_drone s c t o).2.1.connected = true) ∧
    (o ≠ .ok → (connect_drone s c t o).1 = false ∧
      (connect_drone s c t o).2.1.connected = s.connected) ∧
    (s.connected = true → o ≠ .ok →
      (connect_drone s c t o).2.1.connected = true ∧
      (connect_drone s c t o).2.1.status = "ERROR") := by
  cases o <;> simp [connect_drone, updateStatus]

/-- Witness for C10: a failing reconnect attempt from a connected state. -/
theorem C10_witness :
    (connect_drone sConn "udp:127.0.0.1:14550" 30 .fail).2.1.connected = true ∧
    (connect_drone sConn "udp:127.0.0.1:14550" 30 .fail).2.1.status = "ERROR" :=
  (C10_connect_only_sets_connected sConn "udp:127.0.0.1:14550" 30 .fail).2.2
    (by decide) (by decide)

/-- The per-waypoint loop never touches the mission flag. -/
theorem missionLoop_mission_in_progress (wps : List Waypoint) :
    ∀ (s : DroneState) (n i : Nat),
      (missionLoop s n i wps).mission_in_progress = s.mission_in_progress := by
  induction wps with
  | nil => intro s n i; rfl
  | cons wp rest ih => intro s n i; simp [missionLoop, ih, updateStatus]

/-- The per-waypoint loop never touches the connection flag. -/
theorem missionLoop_connected (wps : List Waypoint) :
    ∀ (s : DroneState) (n i : Nat),
      (missionLoop s n i wps).connected = s.connected := by
  induction wps with
  | nil => intro s n i; rfl
  | cons wp rest ih => intro s n i; simp [missionLoop, ih, updateStatus]

/-- Counterexample for claim C4: from a connected state, when the Vehicle
Link's return-to-launch call fails AND the fallback land call fails,
emergency_stop terminates with status ERROR, not RETURNING or LANDED. -/
theorem C4_counterexample :
    sConn.connected = true ∧
    (emergency_stop sConn .fail .fail).1.status = "ERROR" ∧
    (emergency_stop sConn .fail .fail).1.status ≠ "RETURNING" ∧
    (emergency_stop sConn .fail .fail).1.status ≠ "LANDED" := by
  decide

/-- Claim C4 (amended): for every connected state, emergency_stop clears
`mission_in_progress` before returning; it ends with status RETURNING when
the return-to-launch call succeeds, falls back to land when it does not and
then ends with status LANDED when that land call succeeds; only when both
calls fail does it end with status ERROR. -/
theorem C4_emergency_stop_resolution
    (s : DroneState) (oRTL oLand : LinkOutcome) (h : s.connected = true) :
    (emergency_stop s oRTL oLand).1.mission_in_progress = false ∧
    (oRTL = .ok → (emergency_stop s oRTL oLand).1.status = "RETURNING") ∧
    (oRTL ≠ .ok → oLand = .ok →
      (emergency_stop s oRTL oLand).1.status = "LANDED") ∧
    (oRTL ≠ .ok → oLand ≠ .ok →
      (emergency_stop s oRTL oLand).1.status = "ERROR") := by
  cases oRTL <;> cases oLand <;>
    simp [emergency_stop, return_home, land, ensure_connected, updateStatus, h]

/-- Witness for C4: return-to-launch fails, the land fallback succeeds. -/
theorem C4_witness :
    (emergency_stop sConn .fail .ok).1.mission_in_progress = false ∧
    (emergency_stop sConn .fail .ok).1.status = "LANDED" :=
  ⟨(C4_emergency_stop_resolution sConn .fail .ok (by decide)).1,
   (C4_emergency_stop_resolution sConn .fail .ok (by decide)).2.2.1
     (by decide) rfl⟩

/-- Counterexample for claim C2: in a connected state whose
`mission_in_progress` flag is true (reached by a successful takeoff), a
further execute_mission call does not fail: it contacts the Vehicle Link
(upload then start) and returns success. -/
theorem C2_counterexample :
    sMip.connected = true ∧ sMip.mission_in_progress = true ∧
    (execute_mission sMip [⟨"1.0000", "1.0000", "10"⟩] .ok .ok).1 = true ∧
    (execute_mission sMip [⟨"1.0000", "1.0000", "10"⟩] .ok .ok).2.2
      = [.upload_mission [⟨"1.0000", "1.0000", "10"⟩], .execute_mission] := by
  decide

/-- Claim C2 (amended): execute_mission performs no mission-in-progress
check: on a connected state with a non-empty waypoint list it behaves
exactly as if no mission were in progress (same result, same final state,
same Vehicle Link trace), and its first Vehicle Link call is the mission
upload. -/
theorem C2_execute_mission_ignores_flag
    (s : DroneState) (wps : List Waypoint) (oUp oStart : LinkOutcome)
    (hc : s.connected = true) (hw : wps ≠ []) :
    execute_mission s wps oUp oStart
      = execute_mission { s with mission_in_progress := false } wps oUp oStart ∧
    (execute_mission s wps oUp oStart).2.2.head?
      = some (.upload_mission wps) := by
  obtain ⟨c, mip, st, ph, lg, em⟩ := s
  cases wps with
  | nil => exact absurd rfl hw
  | cons w ws =>
      cases oUp <;> cases oStart <;>
        simp [execute_mission, ensure_connected, updateStatus, hc] at hc ⊢ <;>
        simp [hc]

/-- Witness for C2 at the concrete in-progress state. -/
theorem C2_witness :
    execute_mission sMip [⟨"2.0", "2.0", "15"⟩] .ok .ok
      = execute_mission { sMip with mission_in_progress := false }
          [⟨"2.0", "2.0", "15"⟩] .ok .ok ∧
    (execute_mission sMip [⟨"2.0", "2.0", "15"⟩] .ok .ok).2.2.head?
      = some (.upload_mission [⟨"2.0", "2.0", "15"⟩]) :=
  C2_execute_mission_ignores_flag sMip [⟨"2.0", "2.0", "15"⟩] .ok .ok
    (by decide) (by decide)

/-- Spec-side definition, following the spec's words for comparison with the
code: the derived `inProgress` value, true iff the mission phase is
UPLOADING or EXECUTING; the spec's phase vocabulary is mapped onto the
code's status labels, where the upload step runs under the "MISSION" status
and execution under "EXECUTING". -/
def specInProgress (s : DroneState) : Bool :=
  s.status == "MISSION" || s.status == "EXECUTING"

/-- Counterexample for claim C3: a reachable observation point (successful
connect, then a successful one-waypoint mission) where `mission_in_progress`
is still true while the status is the terminal MISSION COMPLETE, so the flag
is not the value derived from the phase. -/
theorem C3_counterexample :
    (runOps initState [.connect_drone "udp:127.0.0.1:14550" 30 .ok,
        .execute_mission [⟨"1.0000", "1.0000", "10"⟩] .ok .ok]).mission_in_progress
      = true ∧
    specInProgress (runOps initState [.connect_drone "udp:127.0.0.1:14550" 30 .ok,
        .execute_mission [⟨"1.0000", "1.0000", "10"⟩] .ok .ok]) = false ∧
    (runOps initState [.connect_drone "udp:127.0.0.1:14550" 30 .ok,
        .execute_mission [⟨"1.0000", "1.0000", "10"⟩] .ok .ok]).status
      = "MISSION COMPLETE" := by
  decide

/-- Claim C3 (amended): `mission_in_progress` is an independently set flag,
not a value derived from the phase: a successful takeoff sets it true while
the status is AIRBORNE, and a successful execute_mission returns with the
flag still true while the status is the terminal MISSION COMPLETE — at both
reachable observation points it diverges from the spec's derived value. -/
theorem C3_flag_not_derived_from_phase
    (s : DroneState) (hc : s.connected = true) (alt : String)
    (wps : List Waypoint) (hw : wps ≠ []) :
    ((takeoff s alt .ok).2.1.mission_in_progress = true ∧
      (takeoff s alt .ok).2.1.status = "AIRBORNE" ∧
      specInProgress (takeoff s alt .ok).2.1 = false) ∧
    ((execute_mission s wps .ok .ok).2.1.mission_in_progress = true ∧
      (execute_mission s wps .ok .ok).2.1.status = "MISSION COMPLETE" ∧
      specInProgress (execute_mission s wps .ok .ok).2.1 = false) := by
  cases wps with
  | nil => exact absurd rfl hw
  | cons w ws =>
      constructor
      · simp [takeoff, ensure_connected, hc, updateStatus, specInProgress]
      · simp [execute_mission, ensure_connected, hc, updateStatus,
          specInProgress, missionLoop_mission_in_progress]

/-- Witness for C3 at the concrete connected state. -/
theorem C3_witness :
    (takeoff sConn "30.0" .ok).2.1.mission_in_progress = true ∧
    (execute_mission sConn [⟨"1.0", "1.0", "10"⟩] .ok .ok).2.1.status
      = "MISSION COMPLETE" :=
  ⟨(C3_flag_not_derived_from_phase sConn (by decide) "30.0"
      [⟨"1.0", "1.0", "10"⟩] (by decide)).1.1,
   (C3_flag_not_derived_from_phase sConn (by decide) "30.0"
      [⟨"1.0", "1.0", "10"⟩] (by decide)).2.2.1⟩

/-- The per-waypoint loop appends one EXECUTING entry per waypoint to the
emission history, indexed from `i`, in list order. -/
theorem missionLoop_emitted (wps : List Waypoint) :
    ∀ (s : DroneState) (n i : Nat),
      (missionLoop s n i wps).emitted
        = s.emitted ++ (List.enumFrom i wps).map
            (fun p => LogEntry.mk "EXECUTING" (wpDetail p.1 n p.2)) := by
  induction wps with
  | nil => intro s n i; simp [missionLoop, List.enumFrom]
  | cons wp rest ih =>
      intro s n i
      simp [missionLoop, ih, updateStatus, List.enumFrom]

/-- Claim C7: a successful execute_mission on a non-empty waypoint list
emits (between the start entries and the completion entry) exactly one
progress entry per waypoint, indexed and ordered by the list's insertion
order with nothing interleaved; an empty waypoint list is rejected with
failure before any Vehicle Link call, with no state change. -/
theorem C7_mission_log_order
    (s : DroneState) (wps : List Waypoint)
    (hc : s.connected = true) (hw : wps ≠ []) :
    (execute_mission s wps .ok .ok).1 = true ∧
    (execute_mission s wps .ok .ok).2.1.emitted
      = s.emitted
        ++ [⟨"MISSION", "Starting mission with " ++ toString wps.length
              ++ " waypoints"⟩,
            ⟨"EXECUTING", "Mission execution started"⟩]
        ++ (List.enumFrom 1 wps).map
            (fun p => LogEntry.mk "EXECUTING" (wpDetail p.1 wps.length p.2))
        ++ [⟨"MISSION COMPLETE", "All waypoints reached"⟩] ∧
    ((List.enumFrom 1 wps).map
        (fun p => LogEntry.mk "EXECUTING" (wpDetail p.1 wps.length p.2))).length
      = wps.length ∧
    (∀ o1 o2 : LinkOutcome, execute_mission s [] o1 o2 = (false, s, [])) := by
  cases wps with
  | nil => exact absurd rfl hw
  | cons w ws =>
      refine ⟨?_, ?_, ?_, ?_⟩
      · simp [execute_mission, ensure_connected, hc]
      · simp [execute_mission, ensure_connected, hc, updateStatus,
          missionLoop_emitted, List.enumFrom]
      · simp [List.enumFrom_length]
      · intro o1 o2
        simp [execute_mission, ensure_connected, hc]

/-- A concrete two-waypoint route for the C7 witness. -/
def wps0 : List Waypoint :=
  [⟨"1.0000", "1.0000", "10"⟩, ⟨"2.0000", "2.0000", "10"⟩]

/-- Witness for C7 at the concrete connected state and two waypoints. -/
theorem C7_witness :
    (execute_mission sConn wps0 .ok .ok).1 = true ∧
    (execute_mission sConn wps0 .ok .ok).2.1.emitted
      = sConn.emitted
        ++ [⟨"MISSION", "Starting mission with " ++ toString wps0.length
              ++ " waypoints"⟩,
            ⟨"EXECUTING", "Mission execution started"⟩]
        ++ (List.enumFrom 1 wps0).map
            (fun p => LogEntry.mk "EXECUTING" (wpDetail p.1 wps0.length p.2))
        ++ [⟨"MISSION COMPLETE", "All waypoints reached"⟩] ∧
    ((List.enumFrom 1 wps0).map
        (fun p => LogEntry.mk "EXECUTING" (wpDetail p.1 wps0.length p.2))).length
      = wps0.length ∧
    (∀ o1 o2 : LinkOutcome, execute_mission sConn [] o1 o2
      = (false, sConn, [])) :=
  C7_mission_log_order sConn wps0 (by decide) (by decide)

/-- Counterexample for claim C6: a Vehicle Link error (teardown raising
"teardown failure" inside disconnect_drone, a public orchestrator method)
that is caught but NOT recorded as a status-log entry with status ERROR:
the emission history gains only the DISCONNECTING entry and contains no
ERROR entry at all, and no failure result is produced. -/
theorem C6_counterexample :
    (disconnect_drone sConn (some "teardown failure")).1.emitted
      = sConn.emitted ++ [⟨"DISCONNECTING", "Disconnecting from drone"⟩] ∧
    ((disconnect_drone sConn (some "teardown failure")).1.emitted.all
      (fun e => !(e.status == "ERROR"))) = true := by
  decide

/-- Claim C6 (amended): no Vehicle Link exception escapes a public method
(every modelled method is total, returning a normalized result); for the
commands connect_drone, takeoff, land, return_home, fly_to and
execute_mission (at both its upload and start call sites) a thrown link
error is caught, recorded as a status-log entry with status ERROR whose
detail carries the error's description, and the method returns failure —
but disconnect_drone (and set_airspeed and the telemetry getters) swallow
the error without any ERROR entry. -/
theorem C6_link_exceptions_normalized
    (s : DroneState) (m conn alt la lo al : String) (t : Nat)
    (oStart : LinkOutcome) (wps : List Waypoint)
    (hc : s.connected = true) (hw : wps ≠ []) :
    ((connect_drone s conn t (.exc m)).1 = false ∧
      (connect_drone s conn t (.exc m)).2.1.status = "ERROR" ∧
      (connect_drone s conn t (.exc m)).2.1.emitted
        = s.emitted ++ [⟨"CONNECTING", "Connecting to " ++ conn⟩,
            ⟨"ERROR", "Connection error: " ++ m⟩]) ∧
    ((takeoff s alt (.exc m)).1 = false ∧
      (takeoff s alt (.exc m)).2.1.status = "ERROR" ∧
      (takeoff s alt (.exc m)).2.1.emitted
        = s.emitted ++ [⟨"TAKING OFF", "Taking off to " ++ alt ++ " meters"⟩,
            ⟨"ERROR", "Takeoff error: " ++ m⟩]) ∧
    ((land s (.exc m)).1 = false ∧
      (land s (.exc m)).2.1.status = "ERROR" ∧
      (land s (.exc m)).2.1.emitted
        = s.emitted ++ [⟨"LANDING", "Landing drone"⟩,
            ⟨"ERROR", "Landing error: " ++ m⟩]) ∧
    ((return_home s (.exc m)).1 = false ∧
      (return_home s (.exc m)).2.1.status = "ERROR" ∧
      (return_home s (.exc m)).2.1.emitted
        = s.emitted ++ [⟨"RETURNING", "Returning to launch point"⟩,
            ⟨"ERROR", "Return error: " ++ m⟩]) ∧
    ((fly_to s la lo al (.exc m)).1 = false ∧
      (fly_to s la lo al (.exc m)).2.1.status = "ERROR" ∧
      (fly_to s la lo al (.exc m)).2.1.emitted
        = s.emitted ++ [⟨"NAVIGATING", "Flying to lat:" ++ la ++ ", lon:"
              ++ lo ++ ", alt:" ++ al ++ "m"⟩,
            ⟨"ERROR", "Navigation error: " ++ m⟩]) ∧
    ((execute_mission s wps (.exc m) oStart).1 = false ∧
      (execute_mission s wps (.exc m) oStart).2.1.status = "ERROR" ∧
      (execute_mission s wps (.exc m) oStart).2.1.emitted
        = s.emitted ++ [⟨"MISSION", "Starting mission with "
              ++ toString wps.length ++ " waypoints"⟩,
            ⟨"ERROR", "Mission error: " ++ m⟩]) ∧
    ((execute_mission s wps .ok (.exc m)).1 = false ∧
      (execute_mission s wps .ok (.exc m)).2.1.status = "ERROR" ∧
      (execute_mission s wps .ok (.exc m)).2.1.emitted
        = s.emitted ++ [⟨"MISSION", "Starting mission with "
              ++ toString wps.length ++ " waypoints"⟩,
            ⟨"ERROR", "Mission error: " ++ m⟩]) := by
  cases wps with
  | nil => exact absurd rfl hw
  | cons w ws =>
      refine ⟨?_, ?_, ?_, ?_, ?_, ?_, ?_⟩ <;>
        simp [connect_drone, takeoff, land, return_home, fly_to,
          execute_mission, ensure_connected, hc, updateStatus]

/-- Witness for C6: a throwing arm-and-takeoff call at the concrete
connected state. -/
theorem C6_witness :
    (takeoff sConn "30.0" (.exc "serial link lost")).1 = false ∧
    (takeoff sConn "30.0" (.exc "serial link lost")).2.1.status = "ERROR" :=
  ⟨(C6_link_exceptions_normalized sConn "serial link lost" "c" "30.0" "1.0"
      "2.0" "10" 30 .ok [⟨"1.0", "1.0", "10"⟩] (by decide) (by decide)).2.1.1,
   (C6_link_exceptions_normalized sConn "serial link lost" "c" "30.0" "1.0"
      "2.0" "10" 30 .ok [⟨"1.0", "1.0", "10"⟩] (by decide) (by decide)).2.1.2.1⟩

/-- Claim C8: after any sequence of orchestrator operations the status log
holds at most 50 entries, and the truncation of `_update_status` is FIFO:
iterated appends to a fresh log retain exactly the suffix of the appended
entries that fits, in append order (so 60 appends leave entries 11..60). -/
theorem C8_log_capacity_and_fifo (ops : List Op) (es : List LogEntry) :
    (runOps initState ops).log_entries.length ≤ 50 ∧
    es.foldl appendLog [] = es.drop (es.length - 50) :=
  ⟨logOk_runOps ops initState (by simp [LogOk, initState]), foldl_appendLog_nil es⟩
